import Mathlib

/-!
Shallow embedding of the EV3 Bluetooth command library (btcomm.c) and the RSF
audio converter (rsfConverter.c).  Each `BT_*` definition mirrors the control
flow of the C function of the same name: the global `message_id_counter` is
passed in explicitly, the transport is replaced by the list of frames the
function writes plus the reply bytes it would read, and stderr error prints
are collected in an `errs` field.  Machine integers are modelled as `Int`
(signed C `int`/`char` arguments) and `Nat` (byte values 0..255), with
two's-complement byte extraction made explicit.
-/

/-- Result of one library call: the C return value, the frames written to the
transport (in order), the value of the global message counter when the call
returns, and the stderr messages that announce a rejection or failure. -/
structure SendResult where
  ret : Int
  written : List (List Nat)
  counter : Nat
  errs : List String
deriving Repr, DecidableEq

/-- Byte `i` of the little-endian two's-complement representation of `v`,
as produced by the C library's pointer-punned byte writes (`LX_byte1`,
`LX_byte2`, ... aliasing a host little-endian `int`). -/
def byteAt (v : Int) (i : Nat) : Nat :=
  ((v.fdiv ((256 : Int) ^ i)) % 256).toNat

/-- Modelled from the spec: `bytecodes.h` is not under src; `LC0` packs a
small constant into a single byte with the top bits clear. -/
def LC0 (v : Int) : Nat := (v % 64).toNat

/-- Modelled from the spec: `bytecodes.h` is not under src; `emit_gv(offset)`
is a 1-byte global-variable reference, and the spec's end-to-end touch-read
frame shows `GV0(0) = 0x00`. -/
def GV0 (off : Nat) : Nat := off % 256

/-- Wire constant fixed by the spec: `opINPUT_DEVICE 0x99`. -/
def opINPUT_DEVICE : Nat := 0x99

/-- Modelled from the spec: `READY_PCT`'s value is pinned by byte 8 = `0x1D`
of the spec's end-to-end touch-read frame. -/
def READY_PCT : Int := 0x1D

/-- Modelled from the spec: `READY_RAW`'s numeric value is elided in the
spec's wire-constant table; `0x1C` is the vendor bytecode value.  No claim
below depends on this number. -/
def READY_RAW : Int := 0x1C

/-- Modelled from the spec: `opOUTPUT_TIME_POWER` is referred to the vendor
bytecode table; `0xAD` is the vendor value.  No claim below depends on it. -/
def opOUTPUT_TIME_POWER : Nat := 0xAD

/-- Modelled from the spec: `opUI_WRITE`'s value is pinned by byte 7 = `0x82`
of the spec's end-to-end LED frame. -/
def opUI_WRITE : Nat := 0x82

/-- Modelled from the spec: the `LED` subcommand is pinned by byte 8 = `0x1B`
of the spec's end-to-end LED frame. -/
def LED : Nat := 0x1B

/-- Modelled from the spec: the ten documented LED patterns are numbered
0..9 with "red pulse" = 8. -/
def LED_BLACK : Int := 0
/-- Modelled from the spec: LED pattern 1, green. -/
def LED_GREEN : Int := 1
/-- Modelled from the spec: LED pattern 2, red. -/
def LED_RED : Int := 2
/-- Modelled from the spec: LED pattern 3, orange. -/
def LED_ORANGE : Int := 3
/-- Modelled from the spec: LED pattern 4, green flash. -/
def LED_GREEN_FLASH : Int := 4
/-- Modelled from the spec: LED pattern 5, red flash. -/
def LED_RED_FLASH : Int := 5
/-- Modelled from the spec: LED pattern 6, orange flash. -/
def LED_ORANGE_FLASH : Int := 6
/-- Modelled from the spec: LED pattern 7, green pulse. -/
def LED_GREEN_PULSE : Int := 7
/-- Modelled from the spec: LED pattern 8, red pulse. -/
def LED_RED_PULSE : Int := 8
/-- Modelled from the spec: LED pattern 9, orange pulse. -/
def LED_ORANGE_PULSE : Int := 9

/-- System-command frame type tag: system command, reply expected. -/
def SYSTEM_COMMAND_REPLY : Nat := 0x01

/-- Reply type tag of a system-command reply. -/
def SYSTEM_REPLY : Nat := 0x03

/-- Modelled from the spec: `BEGIN_DOWNLOAD`'s numeric value comes from the
vendor `c_com.h`, which is not under src; `0x92` is the vendor value. -/
def BEGIN_DOWNLOAD : Nat := 0x92

/-- Modelled from the spec: `CONTINUE_DOWNLOAD`'s numeric value comes from
the vendor `c_com.h`, which is not under src; `0x93` is the vendor value. -/
def CONTINUE_DOWNLOAD : Nat := 0x93

/-- System status code for success. -/
def SUCCESS : Nat := 0x00

/-- System status code signalling the file transfer is complete. -/
def END_OF_FILE : Nat := 0x08

/-- Maximum payload bytes of one CONTINUE_DOWNLOAD chunk (btcomm.h). -/
def PARTITION_SIZE : Nat := 1017

/-- ASCII bytes of a string literal, used for C string arguments. -/
def asciiBytes (s : String) : List Nat := s.data.map Char.toNat

/-- Embeds `BT_setEV3name`.  The name is the argument's byte string; the
reply is what the transport returns.  Mirrors the source: the only
validation is `strlen(name) > 12`; on the send path the frame is the
10-byte prefix, the name bytes, and a terminating NUL, the counter is
incremented, and the function returns 0 whatever the reply says. -/
def BT_setEV3name (counter : Nat) (name : List Nat) (reply : List Nat) : SendResult :=
  let len := name.length
  if len > 12 then
    ⟨-1, [], counter,
      ["BT_setEV3name(): The input name string is too long - 12 characters max, no white spaces or special characters"]⟩
  else
    let lenF := len + 9
    let frame := [lenF % 256, lenF / 256 % 256, counter % 256, counter / 256 % 256,
      0x00, 0x00, 0x00, 0xD4, 0x08, 0x84] ++ name ++ [0]
    let errs := if reply.getD 4 0 = 0x02 then []
      else ["BT_setEV3name(): Command failed, name must not contain spaces or special characters"]
    ⟨0, [frame], counter + 1, errs⟩

/-- The tone entries actually processed by `BT_play_tone_sequence`: at most
50 array rows, cut at the first row whose frequency or duration is -1. -/
def effectiveTones (ts : List (Int × Int × Int)) : List (Int × Int × Int) :=
  (ts.take 50).takeWhile (fun t => t.1 != -1 && t.2.1 != -1)

/-- The range check `BT_play_tone_sequence` applies to one tone entry, with
the stderr message of the first failing test (frequency, then duration,
then volume), or `none` when the entry is in range. -/
def toneError (t : Int × Int × Int) : Option String :=
  if t.1 < 20 || t.1 > 20000 then
    some "BT_play_tone_sequence():Tone range must be in 20Hz-20KHz"
  else if t.2.1 < 1 || t.2.1 > 5000 then
    some "BT_play_tone_sequence():Tone duration must be in 1-5000ms"
  else if t.2.2 < 0 || t.2.2 > 63 then
    some "BT_play_tone_sequence():Volume must be in 0-63"
  else none

/-- The 10 payload bytes `BT_play_tone_sequence` emits for one tone entry
(frequency, duration, volume). -/
def toneEntryBytes (t : Int × Int × Int) : List Nat :=
  [0x94, 0x01, byteAt t.2.2 0, 0x82, byteAt t.1 0, byteAt t.1 1,
   0x82, byteAt t.2.1 0, byteAt t.2.1 1, 0x96]

/-- Embeds `BT_play_tone_sequence`.  The `strcpy` of the prefix copies
nothing (its first byte is NUL), so the type byte stays 0x00; validation of
every effective entry precedes any transport write, and a violation returns
0 with nothing written.  On the send path the frame is the 7-byte prefix
followed by the 10-byte block of each effective entry in order. -/
def BT_play_tone_sequence (counter : Nat) (tones : List (Int × Int × Int)) : SendResult :=
  let eff := effectiveTones tones
  match eff.findSome? toneError with
  | some e => ⟨0, [], counter, [e]⟩
  | none =>
    let payload := (eff.map toneEntryBytes).flatten
    let len := 5 + 10 * eff.length
    let frame := [len % 256, len / 256 % 256, counter % 256, counter / 256 % 256,
      0x00, 0x00, 0x00] ++ payload
    ⟨0, [frame], counter + 1, []⟩

/-- Embeds `BT_motor_port_start`: validation returns 0 with nothing
written; otherwise the fixed 15-byte frame is written, the counter is
post-incremented, and the reply status decides the return value. -/
def BT_motor_port_start (counter : Nat) (port_ids power : Int) (reply : List Nat) : SendResult :=
  if power > 100 ∨ power < -100 then
    ⟨0, [], counter, ["BT_motor_port_start: Power must be in [-100, 100]"]⟩
  else if port_ids > 15 then
    ⟨0, [], counter, ["BT_motor_port_start: Invalid port id value"]⟩
  else
    let frame := [0x0D, 0x00, counter % 256, counter / 256 % 256, 0x00, 0x00, 0x00,
      0xA4, 0x00, byteAt port_ids 0, 0x81, byteAt power 0, 0xA6, 0x00, byteAt port_ids 0]
    if reply.getD 4 0 = 0x02 then ⟨0, [frame], counter + 1, []⟩
    else ⟨-1, [frame], counter + 1, ["BT_drive command(): Command failed"]⟩

/-- Embeds `BT_timed_motor_port_start`.  Faithful to the source: the two
stacked status checks both return, so the trailing `message_id_counter++`
is unreachable and the counter field is never incremented on any path. -/
def BT_timed_motor_port_start (counter : Nat) (port_id power ramp_up_time run_time ramp_down_time : Int)
    (reply : List Nat) : SendResult :=
  if power > 100 ∨ power < -100 then
    ⟨-1, [], counter, ["BT_timed_motor_port_start: Power must be in [-100, 100]"]⟩
  else if port_id > 8 then
    ⟨-1, [], counter, ["BT_timed_motor_port_start: Invalid port id value"]⟩
  else
    let frame := [LC0 20, 0x00, counter % 256, counter / 256 % 256, 0x00, 0x00, 0x00,
      opOUTPUT_TIME_POWER, 0x00, byteAt port_id 0, 0x81, byteAt power 0,
      0x82, byteAt ramp_up_time 0, byteAt ramp_up_time 1,
      0x82, byteAt run_time 0, byteAt run_time 1,
      0x82, byteAt ramp_down_time 0, byteAt ramp_down_time 1, 0x00]
    if reply.getD 4 0 = 0x02 then
      ⟨if reply.getD 5 0 ≠ 0 then 1 else 0, [frame], counter,
        ["BT_motor_port_start command(): Command successful"]⟩
    else
      ⟨-1, [frame], counter, ["BT_motor_port_start command(): Command failed"]⟩

/-- Embeds `BT_turn`.  The power guard is copied verbatim from the source:
it tests `lpower < -100` twice and never tests `rpower`'s lower bound. -/
def BT_turn (counter : Nat) (lport lpower rport rpower : Int) (reply : List Nat) : SendResult :=
  if lpower > 100 ∨ lpower < -100 ∨ rpower > 100 ∨ lpower < -100 then
    ⟨-1, [], counter, ["BT_drive: Power must be in [-100, 100]"]⟩
  else if lport > 8 ∨ rport > 8 then
    ⟨-1, [], counter, ["BT_drive: Invalid port id value"]⟩
  else
    let frame := [0x12, 0x00, counter % 256, counter / 256 % 256, 0x00, 0x00, 0x00,
      0xA4, 0x00, byteAt lport 0, 0x81, byteAt lpower 0,
      0xA4, 0x00, byteAt rport 0, 0x81, byteAt rpower 0,
      0xA6, 0x00, byteAt lport 0 ||| byteAt rport 0]
    if reply.getD 4 0 = 0x02 then ⟨0, [frame], counter + 1, []⟩
    else ⟨-1, [frame], counter + 1, ["BT_turn command(): Command failed"]⟩

/-- Embeds `BT_read_touch_sensor`: builds the fixed 15-byte READY_PCT
request, post-increments the counter, and decodes `reply[5] != 0` on a
successful reply. -/
def BT_read_touch_sensor (counter : Nat) (sensor_port : Int) (reply : List Nat) : SendResult :=
  if sensor_port > 8 then
    ⟨-1, [], counter, ["BT_read_touch_sensor: Invalid port id value"]⟩
  else
    let frame := [0x0D, 0x00, counter % 256, counter / 256 % 256, 0x00, 0x01, 0x00,
      opINPUT_DEVICE, LC0 READY_PCT, 0x00, byteAt sensor_port 0,
      LC0 0x10, 0x00, LC0 0x01, GV0 0x00]
    if reply.getD 4 0 = 0x02 then
      ⟨if reply.getD 5 0 ≠ 0 then 1 else 0, [frame], counter + 1, []⟩
    else
      ⟨-1, [frame], counter + 1, ["BT_touch_sensor(): Command failed"]⟩

/-- Result of `BT_read_colour_sensor_RGB`: C return value, the RGB triple
stored into the caller's `int RGB[3]`, the frames written, and the final
counter. -/
structure RGBResult where
  ret : Int
  rgb : Int × Int × Int
  written : List (List Nat)
  counter : Nat
deriving Repr, DecidableEq

/-- The C `int` value obtained by storing an unsigned 32-bit quantity into a
signed 32-bit variable (two's complement). -/
def asInt32 (n : Nat) : Int :=
  if n % 4294967296 < 2147483648 then (n % 4294967296 : Int)
  else (n % 4294967296 : Int) - 4294967296

/-- Mirrors the shift-and-or chain of `BT_read_colour_sensor_RGB`: the
`uint32_t` assembled from `reply[off+3] .. reply[off]`. -/
def rgbDecode (reply : List Nat) (off : Nat) : Nat :=
  ((((reply.getD (off + 3) 0 <<< 8) ||| reply.getD (off + 2) 0) <<< 8 |||
    reply.getD (off + 1) 0) <<< 8) ||| reply.getD off 0

/-- The spec's reading of the same bytes: the little-endian unsigned 32-bit
integer whose bytes sit at reply offsets `off .. off+3`. -/
def le32At (reply : List Nat) (off : Nat) : Nat :=
  reply.getD off 0 + 256 * reply.getD (off + 1) 0 +
    65536 * reply.getD (off + 2) 0 + 16777216 * reply.getD (off + 3) 0

/-- Embeds `BT_read_colour_sensor_RGB`: builds the 17-byte READY_RAW request
(12 global bytes reserved in the header, `GV0` operands for offsets 0, 4, 8),
post-increments the counter, and on a successful reply assembles R, G, B from
reply bytes 5..16 and stores them into the `int` triple. -/
def BT_read_colour_sensor_RGB (counter : Nat) (sensor_port : Int) (reply : List Nat) : RGBResult :=
  if sensor_port > 8 then ⟨-1, (0, 0, 0), [], counter⟩
  else
    let frame := [LC0 15, 0x00, counter % 256, counter / 256 % 256, 0x00, 0x0C, 0x00,
      opINPUT_DEVICE, LC0 READY_RAW, 0x00, byteAt sensor_port 0,
      LC0 29, LC0 0x04, LC0 3, GV0 0x00, GV0 0x04, GV0 0x08]
    if reply.getD 4 0 = 0x02 then
      ⟨0, (asInt32 (rgbDecode reply 5), asInt32 (rgbDecode reply 9), asInt32 (rgbDecode reply 13)),
        [frame], counter + 1⟩
    else
      ⟨-1, (0, 0, 0), [frame], counter + 1⟩

/-- Embeds `BT_set_LED_colour`: the accepted-value list is copied verbatim
from the source, which omits `LED_RED_PULSE`. -/
def BT_set_LED_colour (counter : Nat) (colour : Int) (reply : List Nat) : SendResult :=
  if colour ≠ LED_BLACK ∧ colour ≠ LED_GREEN ∧ colour ≠ LED_RED ∧
      colour ≠ LED_ORANGE ∧ colour ≠ LED_GREEN_FLASH ∧
      colour ≠ LED_RED_FLASH ∧ colour ≠ LED_ORANGE_FLASH ∧
      colour ≠ LED_GREEN_PULSE ∧ colour ≠ LED_ORANGE_PULSE then
    ⟨-1, [], counter, ["BT_set_LED_colour: Invalid colour value"]⟩
  else
    let frame := [LC0 8, 0x00, counter % 256, counter / 256 % 256, 0x00, 0x00, 0x00,
      opUI_WRITE, LED, byteAt colour 0]
    if reply.getD 4 0 = 0x02 then ⟨0, [frame], counter + 1, []⟩
    else ⟨-1, [frame], counter + 1, ["BT_set_LED_colour: Command failed"]⟩

/-- The destination-path screen of `BT_upload_file`: an absolute path must
begin with one of the three allowed EV3 directories. -/
def destPathValid (dest : List Nat) : Bool :=
  !(dest.headD 0 = 47 &&
    !((asciiBytes "/home/root/lms2012/apps").isPrefixOf dest) &&
    !((asciiBytes "/home/root/lms2012/prjs").isPrefixOf dest) &&
    !((asciiBytes "/home/root/lms2012/tools").isPrefixOf dest))

/-- The BEGIN_DOWNLOAD frame of `BT_upload_file`: length field, counter,
system type tag, subcommand, 4-byte little-endian file size, destination
path and its terminating NUL. -/
def beginFrame (counter size : Nat) (dest : List Nat) : List Nat :=
  let lenF := 9 + dest.length
  [lenF % 256, lenF / 256 % 256, counter % 256, counter / 256 % 256,
   SYSTEM_COMMAND_REPLY, BEGIN_DOWNLOAD,
   size % 256, size / 256 % 256, size / 65536 % 256, size / 16777216 % 256] ++ dest ++ [0]

/-- One CONTINUE_DOWNLOAD frame of `BT_upload_file`: length field, counter,
system type tag, subcommand, 1-byte handle, then the chunk payload. -/
def continueFrame (counter handle : Nat) (chunk : List Nat) : List Nat :=
  let lenF := 5 + chunk.length
  [lenF % 256, lenF / 256 % 256, counter % 256, counter / 256 % 256,
   SYSTEM_COMMAND_REPLY, CONTINUE_DOWNLOAD, handle % 256] ++ chunk

/-- The chunking loop of `BT_upload_file`.  `oracle i` is the reply the
transport returns to the i-th frame of the whole call (the BEGIN_DOWNLOAD
reply is `oracle 0`, so the loop starts at index `idx = 1`); `lastReply` is
the reply buffer content on loop entry.  The fuel is structural; any fuel
at least the remaining file length gives the C behaviour, and the caller
passes exactly the file length.  Returns the C return value, the
CONTINUE_DOWNLOAD frames written, and the final counter. -/
def uploadLoop : Nat → Nat → Nat → List Nat → (Nat → List Nat) → Nat → List Nat →
    Int × List (List Nat) × Nat
  | _, counter, _, [], _, _, lastReply => ((lastReply.getD 6 0 : Int), [], counter)
  | 0, counter, _, _ :: _, _, _, _ => (-2, [], counter)
  | fuel + 1, counter, handle, b :: bs, oracle, idx, _ =>
    let file := b :: bs
    let remainder := min file.length PARTITION_SIZE
    let frame := continueFrame counter handle (file.take remainder)
    let reply := oracle idx
    if reply.getD 4 0 = SYSTEM_REPLY then
      if reply.getD 6 0 = SUCCESS ∨ reply.getD 6 0 = END_OF_FILE then
        let r := uploadLoop fuel (counter + 1) handle (file.drop remainder) oracle (idx + 1) reply
        (r.1, frame :: r.2.1, r.2.2)
      else ((reply.getD 6 0 : Int), [frame], counter + 1)
    else ((reply.getD 4 0 : Int), [frame], counter + 1)

/-- Embeds `BT_upload_file` for a source file given as its byte contents
(`stat` size = `file.length`, and each `fread` returns the requested
count).  `oracle i` is the reply to the i-th frame written. -/
def BT_upload_file (counter : Nat) (dest file : List Nat) (oracle : Nat → List Nat) : SendResult :=
  if !destPathValid dest then
    ⟨-1, [], counter,
      ["Absolute destination path should begin with /home/root/lms2012/app, /home/root/lms2012/prjs or /home/root/lms2012/tools"]⟩
  else
    let bf := beginFrame counter file.length dest
    let r0 := oracle 0
    if r0.getD 4 0 = SYSTEM_REPLY then
      if r0.getD 6 0 = SUCCESS then
        let handle := r0.getD 8 0
        let r := uploadLoop file.length (counter + 1) handle file oracle 1 r0
        ⟨r.1, bf :: r.2.1, r.2.2, []⟩
      else ⟨(r0.getD 6 0 : Int), [bf], counter + 1, []⟩
    else ⟨(r0.getD 4 0 : Int), [bf], counter + 1, ["BT_upload_file: Command failed"]⟩

/-- Chunk sizes of an upload of `s` bytes: repeatedly `min s PARTITION_SIZE`
until nothing remains.  Structural fuel; `chunkSizes` passes `s` itself,
which is always enough. -/
def chunkSizesAux : Nat → Nat → List Nat
  | 0, _ => []
  | fuel + 1, s =>
    if s = 0 then [] else min s PARTITION_SIZE :: chunkSizesAux fuel (s - min s PARTITION_SIZE)

/-- The sequence of CONTINUE_DOWNLOAD payload sizes for an `s`-byte file. -/
def chunkSizes (s : Nat) : List Nat := chunkSizesAux s s

/-- The 8-byte RSF segment header written by rsfConverter.c: format version
01 00, sample count big-endian, sample-rate marker 1F 40, then 00 00. -/
def rsfHeader (size : Nat) : List Nat :=
  [0x01, 0x00, size / 256 % 256, size % 256, 0x1F, 0x40, 0x00, 0x00]

/-- The segment-writing loop of rsfConverter.c: each `read` returns up to
65535 bytes (the buffer size), and each successful read produces one file
`<name>_<n>.rsf` whose content is the 8-byte header followed by the chunk.
Structural fuel; `rsfSegments` passes the data length, which is enough. -/
def rsfSegmentsAux : Nat → String → Nat → List Nat → List (String × List Nat)
  | 0, _, _, _ => []
  | fuel + 1, name, idx, data =>
    if data.isEmpty then []
    else
      let chunk := data.take 65535
      (name ++ "_" ++ toString idx ++ ".rsf", rsfHeader chunk.length ++ chunk) ::
        rsfSegmentsAux fuel name (idx + 1) (data.drop 65535)

/-- The RSF segment files (name, content) the converter writes for the raw
PCM byte sequence `data`, numbered from 1. -/
def rsfSegments (name : String) (data : List Nat) : List (String × List Nat) :=
  rsfSegmentsAux data.length name 1 data

/-- A concrete reply oracle for exercising `BT_upload_file`: a successful
BEGIN_DOWNLOAD reply with handle 5, two SUCCESS continue replies, then
END_OF_FILE replies. -/
def uploadTestOracle : Nat → List Nat := fun i =>
  if i = 0 then [0x0C, 0x00, 0x01, 0x00, 0x03, 0x92, 0x00, 0x00, 0x05]
  else if i ≤ 2 then [0x05, 0x00, 0x01, 0x00, 0x03, 0x93, 0x00]
  else [0x05, 0x00, 0x01, 0x00, 0x03, 0x93, 0x08]

/-! Helper lemmas shared by the claim theorems. -/

/-- Dropping the 7-byte prefix of a CONTINUE_DOWNLOAD frame yields its
payload chunk. -/
theorem continueFrame_drop (c h : Nat) (chunk : List Nat) :
    (continueFrame c h chunk).drop 7 = chunk := rfl

/-- Byte 5 of every CONTINUE_DOWNLOAD frame is the subcommand opcode. -/
theorem continueFrame_getD5 (c h : Nat) (chunk : List Nat) :
    (continueFrame c h chunk).getD 5 0 = CONTINUE_DOWNLOAD := rfl

/-- The fuel of `chunkSizesAux` is irrelevant once it covers the size. -/
theorem chunkSizesAux_congr : ∀ f1 f2 s, s ≤ f1 → s ≤ f2 →
    chunkSizesAux f1 s = chunkSizesAux f2 s := by
  intro f1
  induction f1 with
  | zero =>
    intro f2 s h1 h2
    have hs : s = 0 := Nat.le_zero.mp h1
    subst hs
    cases f2 <;> simp [chunkSizesAux]
  | succ g ih =>
    intro f2 s h1 h2
    cases f2 with
    | zero =>
      have hs : s = 0 := Nat.le_zero.mp h2
      subst hs
      simp [chunkSizesAux]
    | succ k =>
      by_cases hs : s = 0
      · subst hs; simp [chunkSizesAux]
      · simp only [chunkSizesAux, if_neg hs]
        congr 1
        exact ih k (s - min s PARTITION_SIZE)
          (by simp only [PARTITION_SIZE]; omega) (by simp only [PARTITION_SIZE]; omega)

/-- Unfolding equation of `chunkSizes` for a non-empty remainder. -/
theorem chunkSizes_eq_cons (s : Nat) (hs : s ≠ 0) :
    chunkSizes s = min s PARTITION_SIZE :: chunkSizes (s - min s PARTITION_SIZE) := by
  unfold chunkSizes
  cases s with
  | zero => exact absurd rfl hs
  | succ t =>
    simp only [chunkSizesAux, if_neg hs]
    congr 1
    exact chunkSizesAux_congr t (t + 1 - min (t + 1) PARTITION_SIZE)
      (t + 1 - min (t + 1) PARTITION_SIZE)
      (by simp only [PARTITION_SIZE]; omega) (Nat.le_refl _)

/-- Behaviour of the CONTINUE_DOWNLOAD loop when every reply the oracle
returns from index `idx` on is a well-formed system reply with status
SUCCESS or END_OF_FILE: the payloads of the written frames partition the
remaining file into `chunkSizes` pieces, every frame is a CONTINUE_DOWNLOAD
frame with payload at most PARTITION_SIZE, and the return value is the
status byte of the last reply consumed (of `lastReply` when there was
nothing left to send). -/
theorem uploadLoop_spec : ∀ (fuel counter handle : Nat) (file : List Nat)
    (oracle : Nat → List Nat) (idx : Nat) (lastReply : List Nat),
    file.length ≤ fuel →
    (∀ i, idx ≤ i → (oracle i).getD 4 0 = SYSTEM_REPLY ∧
      ((oracle i).getD 6 0 = SUCCESS ∨ (oracle i).getD 6 0 = END_OF_FILE)) →
    ((uploadLoop fuel counter handle file oracle idx lastReply).2.1.map
        fun f => f.drop 7).flatten = file ∧
    ((uploadLoop fuel counter handle file oracle idx lastReply).2.1.map
        fun f => (f.drop 7).length) = chunkSizes file.length ∧
    (∀ f ∈ (uploadLoop fuel counter handle file oracle idx lastReply).2.1,
      f.getD 5 0 = CONTINUE_DOWNLOAD ∧ (f.drop 7).length ≤ PARTITION_SIZE) ∧
    (file = [] →
      (uploadLoop fuel counter handle file oracle idx lastReply).1 =
        (lastReply.getD 6 0 : Int)) ∧
    (file ≠ [] →
      (uploadLoop fuel counter handle file oracle idx lastReply).1 =
        ((oracle (idx + (chunkSizes file.length).length - 1)).getD 6 0 : Int)) := by
  intro fuel
  induction fuel with
  | zero =>
    intro counter handle file oracle idx lastReply hfuel hgood
    have hf : file = [] := List.length_eq_zero.mp (Nat.le_zero.mp hfuel)
    subst hf
    simp [uploadLoop, chunkSizes, chunkSizesAux]
  | succ g ih =>
    intro counter handle file oracle idx lastReply hfuel hgood
    cases file with
    | nil => simp [uploadLoop, chunkSizes, chunkSizesAux]
    | cons b bs =>
      obtain ⟨h4, h6⟩ := hgood idx (Nat.le_refl idx)
      have hstep : uploadLoop (g + 1) counter handle (b :: bs) oracle idx lastReply =
          ((uploadLoop g (counter + 1) handle
              ((b :: bs).drop (min (b :: bs).length PARTITION_SIZE)) oracle (idx + 1)
              (oracle idx)).1,
           continueFrame counter handle
              ((b :: bs).take (min (b :: bs).length PARTITION_SIZE)) ::
             (uploadLoop g (counter + 1) handle
              ((b :: bs).drop (min (b :: bs).length PARTITION_SIZE)) oracle (idx + 1)
              (oracle idx)).2.1,
           (uploadLoop g (counter + 1) handle
              ((b :: bs).drop (min (b :: bs).length PARTITION_SIZE)) oracle (idx + 1)
              (oracle idx)).2.2) := by
        simp only [uploadLoop]
        rw [if_pos h4, if_pos h6]
      have hlen2 : ((b :: bs).drop (min (b :: bs).length PARTITION_SIZE)).length ≤ g := by
        rw [List.length_drop]
        have hL : (b :: bs).length ≤ g + 1 := hfuel
        have hL1 : 0 < (b :: bs).length := by simp
        simp only [PARTITION_SIZE] at hL hL1 ⊢
        omega
      have hgood2 : ∀ i, idx + 1 ≤ i → (oracle i).getD 4 0 = SYSTEM_REPLY ∧
          ((oracle i).getD 6 0 = SUCCESS ∨ (oracle i).getD 6 0 = END_OF_FILE) :=
        fun i hi => hgood i (by omega)
      obtain ⟨ihA, ihB, ihC, ihD, ihE⟩ := ih (counter + 1) handle
        ((b :: bs).drop (min (b :: bs).length PARTITION_SIZE)) oracle (idx + 1)
        (oracle idx) hlen2 hgood2
      refine ⟨?_, ?_, ?_, ?_, ?_⟩
      · rw [hstep]
        simp only [List.map_cons, List.flatten_cons, continueFrame_drop]
        rw [ihA]
        exact List.take_append_drop _ _
      · rw [hstep]
        simp only [List.map_cons, continueFrame_drop]
        rw [ihB, List.length_take, List.length_drop]
        rw [chunkSizes_eq_cons ((b :: bs).length) (by simp)]
        congr 1
        simp only [PARTITION_SIZE]
        omega
      · rw [hstep]
        intro f hf
        rcases List.mem_cons.mp hf with rfl | hmem
        · refine ⟨continueFrame_getD5 _ _ _, ?_⟩
          rw [continueFrame_drop, List.length_take]
          simp only [PARTITION_SIZE]
          omega
        · exact ihC f hmem
      · intro hcontra
        exact absurd hcontra (List.cons_ne_nil b bs)
      · intro hne
        rw [hstep]
        by_cases hf2 : (b :: bs).drop (min (b :: bs).length PARTITION_SIZE) = []
        · have hret := ihD hf2
          have hz : (b :: bs).length - min (b :: bs).length PARTITION_SIZE = 0 := by
            have hc := congrArg List.length hf2
            rw [List.length_drop] at hc
            simpa using hc
          rw [hret, chunkSizes_eq_cons ((b :: bs).length) (by simp), hz]
          simp [chunkSizes, chunkSizesAux]
        · have hret := ihE hf2
          rw [List.length_drop] at hret
          rw [hret, chunkSizes_eq_cons ((b :: bs).length) (by simp)]
          rw [show ∀ x y : Nat, x + 1 + y - 1 = x + (y + 1) - 1 from fun x y => by omega]
          simp only [List.length_cons]

/-- Bitwise-or of a byte below 256 into a value shifted left by 8 is plain
addition. -/
theorem lor_byte_eq_add (x b : Nat) (hb : b < 256) : (x <<< 8) ||| b = 256 * x + b := by
  have hb2 : b < 2 ^ 8 := by norm_num; omega
  calc (x <<< 8) ||| b = 2 ^ 8 * x ||| b := by rw [Nat.shiftLeft_eq, Nat.mul_comm]
    _ = 2 ^ 8 * x + b := (Nat.mul_add_lt_is_or hb2 x).symm
    _ = 256 * x + b := by norm_num

/-- The shift-and-or chain of the RGB decoder computes exactly the
little-endian unsigned 32-bit integer at the given reply offset, for
byte-valued replies. -/
theorem rgbDecode_eq_le32At (reply : List Nat) (off : Nat)
    (hb : ∀ i, reply.getD i 0 < 256) :
    rgbDecode reply off = le32At reply off := by
  unfold rgbDecode le32At
  rw [lor_byte_eq_add _ _ (hb (off + 2)), lor_byte_eq_add _ _ (hb (off + 1)),
    lor_byte_eq_add _ _ (hb off)]
  ring

/-- Every defaulted read from a byte-valued list is below 256. -/
theorem getD_lt_of_bytes (reply : List Nat) (hbytes : ∀ b ∈ reply, b < 256) :
    ∀ i, reply.getD i 0 < 256 := by
  intro i
  rw [List.getD_eq_getElem?_getD]
  cases h : reply[i]? with
  | none => simp
  | some b => simpa using hbytes b (List.getElem?_mem h)

/-- Segment `i` (0-based) of the converter output is the file
`<name>_<idx+i>.rsf` holding the 8-byte header and the i-th 65535-byte
chunk of the remaining data. -/
theorem rsfSegmentsAux_getElem : ∀ (i fuel : Nat) (name : String) (idx : Nat) (data : List Nat),
    data.length ≤ fuel → i < (rsfSegmentsAux fuel name idx data).length →
    (rsfSegmentsAux fuel name idx data)[i]? =
      some (name ++ "_" ++ toString (idx + i) ++ ".rsf",
       rsfHeader ((data.drop (65535 * i)).take 65535).length ++
         (data.drop (65535 * i)).take 65535) := by
  intro i
  induction i with
  | zero =>
    intro fuel name idx data hfuel h
    cases fuel with
    | zero => simp [rsfSegmentsAux] at h
    | succ g =>
      by_cases hd : data.isEmpty
      · simp [rsfSegmentsAux, hd] at h
      · simp [rsfSegmentsAux, hd]
  | succ j ihj =>
    intro fuel name idx data hfuel h
    cases fuel with
    | zero => simp [rsfSegmentsAux] at h
    | succ g =>
      by_cases hd : data.isEmpty
      · simp [rsfSegmentsAux, hd] at h
      · have hdn : data ≠ [] := by
          intro hcontra
          subst hcontra
          simp at hd
        have hlen2 : (data.drop 65535).length ≤ g := by
          rw [List.length_drop]
          have hpos : 0 < data.length := List.length_pos.mpr hdn
          omega
        have hlt : j < (rsfSegmentsAux g name (idx + 1) (data.drop 65535)).length := by
          simp [rsfSegmentsAux, hd] at h
          omega
        have hrec := ihj g name (idx + 1) (data.drop 65535) hlen2 hlt
        simp only [rsfSegmentsAux, hd, Bool.false_eq_true, if_false, List.getElem?_cons_succ]
        rw [hrec, List.drop_drop]
        have h1 : idx + 1 + j = idx + (j + 1) := by omega
        have h2 : 65535 + 65535 * j = 65535 * (j + 1) := by ring
        rw [h1, h2]

/-! Claim theorems. -/

/-- C1: the claim that every send attempt post-increments the message
counter exactly once fails on `BT_timed_motor_port_start`: for a valid call
(port MOTOR_A = 1, power 50, times 100/1000/100 ms) the function writes its
22-byte frame but, whatever the reply, returns from one of the two stacked
status branches before the trailing counter increment, so the counter is
unchanged.  Its sibling `BT_motor_port_start` does post-increment by one,
as the claim demands. -/
theorem claim_C1_timed_motor_counter (counter : Nat) (reply : List Nat) :
    (BT_timed_motor_port_start counter 1 50 100 1000 100 reply).written.length = 1 ∧
    (BT_timed_motor_port_start counter 1 50 100 1000 100 reply).counter = counter ∧
    (BT_motor_port_start counter 1 50 reply).counter = counter + 1 := by
  refine ⟨?_, ?_, ?_⟩ <;>
    by_cases h : reply[4]?.getD 0 = 2 <;>
      simp [BT_timed_motor_port_start, BT_motor_port_start, h]

/-- C2: a tone entry (before the -1 sentinel) whose frequency lies outside
[20, 20000] makes `BT_play_tone_sequence` report a range error and write
nothing; the boundary entries (19, 100, 10) and (20001, 100, 10) are
rejected with no write, while (20, 1, 0) and (20000, 5000, 63) pass
validation and are sent in a single frame. -/
theorem claim_C2_tone_out_of_range (counter : Nat) (tones : List (Int × Int × Int))
    (t : Int × Int × Int) (hmem : t ∈ effectiveTones tones)
    (hfreq : t.1 < 20 ∨ 20000 < t.1) :
    (BT_play_tone_sequence counter tones).written = [] ∧
    (BT_play_tone_sequence counter tones).errs ≠ [] ∧
    (BT_play_tone_sequence 1 [(19, 100, 10)]).written = [] ∧
    (BT_play_tone_sequence 1 [(20001, 100, 10)]).written = [] ∧
    (BT_play_tone_sequence 1 [(20, 1, 0), (20000, 5000, 63), (-1, -1, -1)]).errs = [] ∧
    (BT_play_tone_sequence 1 [(20, 1, 0), (20000, 5000, 63), (-1, -1, -1)]).written =
      [[0x19, 0x00, 0x01, 0x00, 0x00, 0x00, 0x00] ++
        toneEntryBytes (20, 1, 0) ++ toneEntryBytes (20000, 5000, 63)] := by
  cases h : (effectiveTones tones).findSome? toneError with
  | none =>
    exfalso
    have hcontra := List.findSome?_eq_none_iff.mp h t hmem
    rcases hfreq with hf | hf <;> simp [toneError, hf] at hcontra
  | some e =>
    refine ⟨?_, ?_, by decide, by decide, by decide, by decide⟩ <;>
      simp [BT_play_tone_sequence, h]

/-- Witness for C2 at the concrete rejected entry (19, 100, 10). -/
theorem claim_C2_tone_out_of_range_witness :
    (BT_play_tone_sequence 1 [((19 : Int), 100, 10)]).written = [] ∧
    (BT_play_tone_sequence 1 [((19 : Int), 100, 10)]).errs ≠ [] :=
  ⟨(claim_C2_tone_out_of_range 1 [(19, 100, 10)] (19, 100, 10) (by decide) (by decide)).1,
   (claim_C2_tone_out_of_range 1 [(19, 100, 10)] (19, 100, 10) (by decide) (by decide)).2.1⟩

/-- C3: with a valid destination, a successful BEGIN_DOWNLOAD reply and
well-formed continue replies, `BT_upload_file` writes one BEGIN_DOWNLOAD
frame followed by CONTINUE_DOWNLOAD frames whose payloads are each at most
PARTITION_SIZE = 1017 bytes and concatenate to the whole file (so their
lengths sum to the declared size); the payload sizes are `chunkSizes` of
the file size, which for 2500 bytes is 1017, 1017, 466; and the return
value is the status of the reply to the last chunk, hence END_OF_FILE when
the brick acknowledges the last chunk so. -/
theorem claim_C3_upload_chunks (counter : Nat) (dest file : List Nat)
    (oracle : Nat → List Nat) (hdest : destPathValid dest = true)
    (hb4 : (oracle 0).getD 4 0 = SYSTEM_REPLY) (hb6 : (oracle 0).getD 6 0 = SUCCESS)
    (hcont : ∀ i, 1 ≤ i → (oracle i).getD 4 0 = SYSTEM_REPLY ∧
      ((oracle i).getD 6 0 = SUCCESS ∨ (oracle i).getD 6 0 = END_OF_FILE)) :
    ∃ cfs, (BT_upload_file counter dest file oracle).written =
        beginFrame counter file.length dest :: cfs ∧
      (beginFrame counter file.length dest).getD 5 0 = BEGIN_DOWNLOAD ∧
      (∀ f ∈ cfs, f.getD 5 0 = CONTINUE_DOWNLOAD ∧ (f.drop 7).length ≤ PARTITION_SIZE) ∧
      (cfs.map fun f => f.drop 7).flatten = file ∧
      (cfs.map fun f => (f.drop 7).length) = chunkSizes file.length ∧
      chunkSizes 2500 = [1017, 1017, 466] ∧
      (file ≠ [] → (BT_upload_file counter dest file oracle).ret =
        ((oracle (chunkSizes file.length).length).getD 6 0 : Int)) := by
  have hstep : BT_upload_file counter dest file oracle =
      ⟨(uploadLoop file.length (counter + 1) ((oracle 0).getD 8 0) file oracle 1 (oracle 0)).1,
       beginFrame counter file.length dest ::
         (uploadLoop file.length (counter + 1) ((oracle 0).getD 8 0) file oracle 1 (oracle 0)).2.1,
       (uploadLoop file.length (counter + 1) ((oracle 0).getD 8 0) file oracle 1 (oracle 0)).2.2,
       []⟩ := by
    simp only [BT_upload_file, hdest, Bool.not_true, Bool.false_eq_true, if_false]
    rw [if_pos hb4, if_pos hb6]
  obtain ⟨hA, hB, hC, hD, hE⟩ := uploadLoop_spec file.length (counter + 1)
    ((oracle 0).getD 8 0) file oracle 1 (oracle 0) (Nat.le_refl _) hcont
  refine ⟨_, by rw [hstep], rfl, hC, hA, hB, by decide, fun hne => ?_⟩
  rw [hstep]
  have hr := hE hne
  rw [show 1 + (chunkSizes file.length).length - 1 = (chunkSizes file.length).length
    from by omega] at hr
  exact hr

/-- Witness for C3: a 2500-byte upload against the concrete test oracle
splits into chunks 1017, 1017, 466 and returns END_OF_FILE = 8. -/
theorem claim_C3_upload_chunks_witness :
    chunkSizes 2500 = [1017, 1017, 466] ∧
    (BT_upload_file 1 (asciiBytes "snd.rsf") (List.replicate 2500 7) uploadTestOracle).ret = 8 := by
  have hcont : ∀ i, 1 ≤ i → (uploadTestOracle i).getD 4 0 = SYSTEM_REPLY ∧
      ((uploadTestOracle i).getD 6 0 = SUCCESS ∨ (uploadTestOracle i).getD 6 0 = END_OF_FILE) := by
    intro i hi
    simp only [uploadTestOracle]
    rw [if_neg (by omega)]
    by_cases h2 : i ≤ 2
    · rw [if_pos h2]; exact ⟨rfl, Or.inl rfl⟩
    · rw [if_neg h2]; exact ⟨rfl, Or.inr rfl⟩
  obtain ⟨cfs, hw, hb, hC, hA, hB, hchunk, hret⟩ :=
    claim_C3_upload_chunks 1 (asciiBytes "snd.rsf") (List.replicate 2500 7) uploadTestOracle
      (by decide) (by decide) (by decide) hcont
  refine ⟨hchunk, ?_⟩
  have hne : List.replicate 2500 7 ≠ ([] : List Nat) := by
    intro hcontra
    have hlen := congrArg List.length hcontra
    rw [List.length_replicate] at hlen
    simp at hlen
  have hr := hret hne
  rw [List.length_replicate, hchunk] at hr
  rw [hr]
  decide

/-- C4: with the counter at 1, `BT_read_touch_sensor` on PORT_1 = 0 writes
exactly the 15-byte frame 0D 00 01 00 00 01 00 99 1D 00 00 10 00 01 00, and
on the reply 02 00 01 00 02 01 (byte 4 = 0x02, byte 5 nonzero) returns 1
with the counter advanced to 2. -/
theorem claim_C4_touch_read :
    BT_read_touch_sensor 1 0 [0x02, 0x00, 0x01, 0x00, 0x02, 0x01] =
      ⟨1, [[0x0D, 0x00, 0x01, 0x00, 0x00, 0x01, 0x00, 0x99, 0x1D, 0x00, 0x00, 0x10,
        0x00, 0x01, 0x00]], 2, []⟩ := by decide

/-- C5: on a successful reply (byte 4 = 0x02) `BT_read_colour_sensor_RGB`
decodes the RGB triple as the three consecutive little-endian unsigned
32-bit integers at reply offsets 5, 9 and 13 (stored into C ints); the
17-byte reply with bytes 5..16 = 04 00 00 00 F4 03 00 00 FC 03 00 00
yields (4, 1012, 1020); and the request reserves 12 global bytes in its
header with GV0 operands for offsets 0, 4 and 8. -/
theorem claim_C5_rgb_decode (counter : Nat) (port : Int) (reply : List Nat)
    (hport : port ≤ 8) (hbytes : ∀ b ∈ reply, b < 256) (hok : reply.getD 4 0 = 2) :
    (BT_read_colour_sensor_RGB counter port reply).rgb =
      (asInt32 (le32At reply 5), asInt32 (le32At reply 9), asInt32 (le32At reply 13)) ∧
    (BT_read_colour_sensor_RGB 1 0
      [0x0F, 0x00, 0x01, 0x00, 0x02, 0x04, 0x00, 0x00, 0x00,
       0xF4, 0x03, 0x00, 0x00, 0xFC, 0x03, 0x00, 0x00]).rgb = (4, 1012, 1020) ∧
    (∃ frame, (BT_read_colour_sensor_RGB counter port reply).written = [frame] ∧
      frame.getD 5 0 = 12 ∧
      frame.getD 14 0 = GV0 0 ∧ frame.getD 15 0 = GV0 4 ∧ frame.getD 16 0 = GV0 8 ∧
      GV0 0 = 0 ∧ GV0 4 = 4 ∧ GV0 8 = 8) := by
  have hb := getD_lt_of_bytes reply hbytes
  have hdec : ∀ off, rgbDecode reply off = le32At reply off :=
    fun off => rgbDecode_eq_le32At reply off hb
  unfold BT_read_colour_sensor_RGB
  rw [if_neg (by omega), if_pos hok]
  refine ⟨by simp [hdec], by decide, ?_⟩
  exact ⟨_, rfl, rfl, rfl, rfl, rfl, by decide, by decide, by decide⟩

/-- Witness for C5 at the concrete 17-byte reply of the claim. -/
theorem claim_C5_rgb_decode_witness :
    (BT_read_colour_sensor_RGB 1 0
      [0x0F, 0x00, 0x01, 0x00, 0x02, 0x04, 0x00, 0x00, 0x00,
       0xF4, 0x03, 0x00, 0x00, 0xFC, 0x03, 0x00, 0x00]).rgb = (4, 1012, 1020) :=
  (claim_C5_rgb_decode 1 0
    [0x0F, 0x00, 0x01, 0x00, 0x02, 0x04, 0x00, 0x00, 0x00,
     0xF4, 0x03, 0x00, 0x00, 0xFC, 0x03, 0x00, 0x00]
    (by decide) (by decide) (by decide)).2.1

/-- C6: when every effective tone entry is in range, the single written
frame's payload is exactly the concatenation, in entry order, of the
10-byte block 94 01 vol 82 freq-lo freq-hi 82 dur-lo dur-hi 96 per entry;
the entry (262, 250, 1) encodes to 94 01 01 82 06 01 82 FA 00 96. -/
theorem claim_C6_tone_encoding (counter : Nat) (tones : List (Int × Int × Int))
    (hall : ∀ t ∈ effectiveTones tones, toneError t = none) :
    (∃ frame, (BT_play_tone_sequence counter tones).written = [frame] ∧
      frame.drop 7 = ((effectiveTones tones).map toneEntryBytes).flatten) ∧
    toneEntryBytes (262, 250, 1) = [0x94, 0x01, 0x01, 0x82, 0x06, 0x01, 0x82, 0xFA, 0x00, 0x96] ∧
    (BT_play_tone_sequence 1 [(262, 250, 1)]).written =
      [[0x0F, 0x00, 0x01, 0x00, 0x00, 0x00, 0x00,
        0x94, 0x01, 0x01, 0x82, 0x06, 0x01, 0x82, 0xFA, 0x00, 0x96]] := by
  have hnone : (effectiveTones tones).findSome? toneError = none :=
    List.findSome?_eq_none_iff.mpr hall
  refine ⟨?_, by decide, by decide⟩
  simp only [BT_play_tone_sequence, hnone]
  exact ⟨_, rfl, rfl⟩

/-- Witness for C6 at the concrete single-entry sequence (262, 250, 1). -/
theorem claim_C6_tone_encoding_witness :
    (BT_play_tone_sequence 1 [((262 : Int), 250, 1)]).written =
      [[0x0F, 0x00, 0x01, 0x00, 0x00, 0x00, 0x00,
        0x94, 0x01, 0x01, 0x82, 0x06, 0x01, 0x82, 0xFA, 0x00, 0x96]] :=
  (claim_C6_tone_encoding 1 [(262, 250, 1)] (by decide)).2.2

/-- C7 counterexample: the 3-byte name "a b" contains whitespace, yet
`BT_setEV3name` passes validation, writes its frame and returns 0 — the
claim that every name containing whitespace is rejected with no frame
written is false on the code. -/
theorem claim_C7_whitespace_counterexample :
    (BT_setEV3name 1 [97, 32, 98] []).written ≠ [] ∧
    (BT_setEV3name 1 [97, 32, 98] []).ret = 0 := by decide

/-- C7 (amended): `BT_setEV3name` rejects, before any I/O, exactly the
names longer than 12 bytes (error message, return -1, nothing written);
every name of at most 12 bytes — whitespace and punctuation included —
passes validation and its frame is sent.  In particular
"too_long_name!" (14 bytes) is rejected with no frame and "R2D2" is sent. -/
theorem claim_C7_name_length_only (counter : Nat) (name reply : List Nat) :
    (name.length > 12 →
      (BT_setEV3name counter name reply).written = [] ∧
      (BT_setEV3name counter name reply).ret = -1 ∧
      (BT_setEV3name counter name reply).errs ≠ []) ∧
    (name.length ≤ 12 → (BT_setEV3name counter name reply).written.length = 1) ∧
    (BT_setEV3name counter (asciiBytes "too_long_name!") reply).written = [] ∧
    (BT_setEV3name counter (asciiBytes "R2D2") reply).written.length = 1 := by
  have h14 : (asciiBytes "too_long_name!").length = 14 := by decide
  have h4 : (asciiBytes "R2D2").length = 4 := by decide
  refine ⟨fun hlen => ?_, fun hlen => ?_, ?_, ?_⟩
  · simp [BT_setEV3name, hlen]
  · simp [BT_setEV3name, Nat.not_lt.mpr hlen]
  · simp [BT_setEV3name, h14]
  · simp [BT_setEV3name, h4]

/-- Witness for the amended C7 at a 13-byte name and at "R2D2". -/
theorem claim_C7_name_length_only_witness :
    (BT_setEV3name 1 (List.replicate 13 97) []).written = [] ∧
    (BT_setEV3name 1 [82, 50, 68, 50] []).written.length = 1 :=
  ⟨((claim_C7_name_length_only 1 (List.replicate 13 97) []).1 (by decide)).1,
   (claim_C7_name_length_only 1 [82, 50, 68, 50] []).2.1 (by decide)⟩

/-- C8: `BT_set_LED_colour` rejects LED_RED_PULSE = 8 with return -1 and no
frame written, while each of the other nine documented patterns
(0, 1, 2, 3, 4, 5, 6, 7, 9) passes validation and is sent in one frame —
the source's omission of LED_RED_PULSE from its accepted list is
preserved. -/
theorem claim_C8_led_patterns (counter : Nat) (reply : List Nat) (c : Int)
    (hc : c ∈ ([0, 1, 2, 3, 4, 5, 6, 7, 9] : List Int)) :
    (BT_set_LED_colour counter LED_RED_PULSE reply).written = [] ∧
    (BT_set_LED_colour counter LED_RED_PULSE reply).ret = -1 ∧
    (BT_set_LED_colour counter c reply).written.length = 1 := by
  refine ⟨?_, ?_, ?_⟩
  · simp [BT_set_LED_colour, LED_RED_PULSE, LED_BLACK, LED_GREEN, LED_RED, LED_ORANGE,
      LED_GREEN_FLASH, LED_RED_FLASH, LED_ORANGE_FLASH, LED_GREEN_PULSE, LED_ORANGE_PULSE]
  · simp [BT_set_LED_colour, LED_RED_PULSE, LED_BLACK, LED_GREEN, LED_RED, LED_ORANGE,
      LED_GREEN_FLASH, LED_RED_FLASH, LED_ORANGE_FLASH, LED_GREEN_PULSE, LED_ORANGE_PULSE]
  · fin_cases hc <;>
      by_cases h : reply[4]?.getD 0 = 2 <;>
        simp [BT_set_LED_colour, LED_BLACK, LED_GREEN, LED_RED, LED_ORANGE,
          LED_GREEN_FLASH, LED_RED_FLASH, LED_ORANGE_FLASH, LED_GREEN_PULSE,
          LED_ORANGE_PULSE, h]

/-- Witness for C8 at pattern 9 (orange pulse). -/
theorem claim_C8_led_patterns_witness :
    (BT_set_LED_colour 1 LED_RED_PULSE []).written = [] ∧
    (BT_set_LED_colour 1 9 []).written.length = 1 :=
  ⟨(claim_C8_led_patterns 1 [] 9 (by decide)).1,
   (claim_C8_led_patterns 1 [] 9 (by decide)).2.2⟩

/-- C9: segment i (0-based) of the converter output is the file
`<name>_<i+1>.rsf` whose content is the 8-byte header followed by exactly
the segment's samples; each segment holds at most 65535 samples, and for
counts up to 65535 the header is 01 00, the big-endian sample count at
offset 2, 1F 40 at offset 4 and 00 00 at offset 6. -/
theorem claim_C9_rsf_segments (name : String) (data : List Nat) (i : Nat)
    (h : i < (rsfSegments name data).length) :
    (rsfSegments name data)[i]? =
      some (name ++ "_" ++ toString (i + 1) ++ ".rsf",
        rsfHeader ((data.drop (65535 * i)).take 65535).length ++
          (data.drop (65535 * i)).take 65535) ∧
    ((data.drop (65535 * i)).take 65535).length ≤ 65535 ∧
    (∀ s : Nat, s ≤ 65535 →
      rsfHeader s = [0x01, 0x00, s / 256, s % 256, 0x1F, 0x40, 0x00, 0x00] ∧
      256 * (s / 256) + s % 256 = s) := by
  refine ⟨?_, ?_, ?_⟩
  · have hh := rsfSegmentsAux_getElem i data.length name 1 data (Nat.le_refl _) h
    rw [show (1 : Nat) + i = i + 1 from by omega] at hh
    exact hh
  · rw [List.length_take]
    omega
  · intro s hs
    constructor
    · simp only [rsfHeader]
      have hm : s / 256 % 256 = s / 256 := Nat.mod_eq_of_lt (by omega)
      rw [hm]
    · omega

/-- Witness for C9: a 2-sample input yields the single file "a_1.rsf" with
header 01 00 00 02 1F 40 00 00 followed by the samples. -/
theorem claim_C9_rsf_segments_witness :
    (rsfSegments "a" [7, 8])[0]? =
      some ("a_1.rsf", [0x01, 0x00, 0x00, 0x02, 0x1F, 0x40, 0x00, 0x00, 7, 8]) :=
  ((claim_C9_rsf_segments "a" [7, 8] 0 (by decide)).1).trans (by decide)

/-- C10: `BT_turn` never rejects a right-motor power below -100: with valid
ports and left power in range, every rpower in [-128, -101] passes the
guard (which tests lpower's lower bound twice and never rpower's), and a
20-byte frame is written whose byte 16 is rpower's two's-complement byte. -/
theorem claim_C10_turn_rpower (counter : Nat) (lport lpower rport rpower : Int)
    (reply : List Nat) (hl : lport ≤ 8) (hr : rport ≤ 8)
    (hlp : -100 ≤ lpower ∧ lpower ≤ 100) (hrp : -128 ≤ rpower ∧ rpower ≤ -101) :
    ∃ frame, (BT_turn counter lport lpower rport rpower reply).written = [frame] ∧
      frame.length = 20 ∧ frame.getD 16 0 = byteAt rpower 0 ∧
      byteAt rpower 0 = (rpower + 256).toNat := by
  have hbyte : byteAt rpower 0 = (rpower + 256).toNat := by
    simp only [byteAt, pow_zero, Int.fdiv_one]
    omega
  unfold BT_turn
  rw [if_neg (by omega), if_neg (by omega)]
  by_cases h : reply.getD 4 0 = 0x02
  · rw [if_pos h]
    exact ⟨_, rfl, by simp, by simp [List.getD], hbyte⟩
  · rw [if_neg h]
    exact ⟨_, rfl, by simp, by simp [List.getD], hbyte⟩

/-- Witness for C10 at rpower = -128: the frame's right-power byte is 128. -/
theorem claim_C10_turn_rpower_witness :
    ((BT_turn 1 1 0 2 (-128) []).written.headD []).getD 16 0 = 128 := by
  obtain ⟨frame, h1, h2, h3, h4⟩ :=
    claim_C10_turn_rpower 1 1 0 2 (-128) [] (by decide) (by decide) (by decide) (by decide)
  rw [h1]
  simp only [List.headD_cons]
  rw [h3, h4]
  decide
